import Mathlib

/-!
Shallow embedding of the AI YouTube Video Summarizer (`app.py`).

The program is a linear pipeline: fetch an English transcript for a YouTube
URL; if that yields nothing, download an audio-only stream and transcribe it;
then summarize the transcript with a chat-completion service and render the
results.  Every external service call is modelled by an explicit outcome value
supplied through an environment record, and every UI side effect (displayed
errors and warnings, rendered transcript and summary, download buttons) is
recorded in the result record, so the driver is a pure function of the URL and
the environment.  Python truthiness on strings and optionals (`if transcript:`)
is modelled by `pyTruthy`.
-/

namespace YtSummarizer

/-- One timed segment returned by the transcript service
(`t['text']` is the only field the program reads). -/
structure Segment where
  text : String
deriving Repr, DecidableEq

/-- Outcome of the transcript-service call made inside `get_youtube_transcript`
(either the segment list, or one of the exceptions the code distinguishes). -/
inductive FetchOutcome where
  | success (segs : List Segment)
  | transcriptsDisabled
  | noTranscriptFound
  | otherError (msg : String)
deriving Repr, DecidableEq

/-- Model of `get_youtube_transcript(url)`: join the segment texts with single spaces;
`TranscriptsDisabled` / `NoTranscriptFound` return `None` silently; any other
exception displays `Error: {e}` and returns `None`.  The first component is the
returned value, the second the list of displayed error messages. -/
def get_youtube_transcript : FetchOutcome → Option String × List String
  | .success segs => (some (String.intercalate " " (segs.map Segment.text)), [])
  | .transcriptsDisabled => (none, [])
  | .noTranscriptFound => (none, [])
  | .otherError e => (none, ["Error: " ++ e])

/-- One entry of `yt.streams` with the two attributes the filter inspects and a
name identifying the downloaded file. -/
structure AudioStream where
  onlyAudio : Bool
  fileExtension : String
  name : String
deriving Repr, DecidableEq

/-- Outcome of the stream-resolution call inside `download_audio`. -/
inductive DownloadOutcome where
  | streams (ss : List AudioStream)
  | error (msg : String)
deriving Repr, DecidableEq

/-- The filter `only_audio=True, file_extension='mp4'`. -/
def isAudioMp4 (s : AudioStream) : Bool :=
  s.onlyAudio && (s.fileExtension == "mp4")

/-- Result of `download_audio`: the returned path (or `None`), whether the
scratch directory `temp_audio` was ensured (`mkdir(exist_ok=True)`), and the
displayed error messages. -/
structure DownloadResult where
  path : Option String
  dirCreated : Bool
  errors : List String
deriving Repr, DecidableEq

/-- Model of `download_audio(url)`: take the first stream matching the audio/mp4 filter
(`.filter(...).first()`); if present, create `temp_audio` and download into it;
if absent return `None`; any exception displays `Download error: {e}` and
returns `None`. -/
def download_audio : DownloadOutcome → DownloadResult
  | .streams ss =>
    match (ss.filter isAudioMp4).head? with
    | some s =>
      { path := some ("temp_audio/" ++ s.name), dirCreated := true, errors := [] }
    | none => { path := none, dirCreated := false, errors := [] }
  | .error e => { path := none, dirCreated := false, errors := ["Download error: " ++ e] }

/-- Outcome of the speech-to-text call inside `transcribe_audio`. -/
inductive TranscribeOutcome where
  | success (text : String)
  | error (msg : String)
deriving Repr, DecidableEq

/-- Model of `transcribe_audio(file_path)`: return the service's `text` field; any
exception displays `Transcription error: {e}` and returns `None`. -/
def transcribe_audio : TranscribeOutcome → Option String × List String
  | .success t => (some t, [])
  | .error e => (none, ["Transcription error: " ++ e])

/-- Model of `count_tokens(text)`: length of the tokenizer encoding of the text.  The
tokenizer (`tiktoken` for gpt-3.5-turbo) is external and is modelled as a
function from the text to its token list. -/
def count_tokens (enc : String → List Nat) (text : String) : Nat :=
  (enc text).length

/-- The truncation step at the top of `generate_summary`: if the token count
exceeds `max_tokens` the text is cut to its first `int(max_tokens * 3.5)`
characters (`7 * max_tokens / 2`; for the default 3000 this is 10500), else it
is passed through unchanged.  Python slicing `text[:n]` is character-wise,
modelled by `List.take` on the string's character data. -/
def generate_summary_text (enc : String → List Nat) (text : String)
    (max_tokens : Nat := 3000) : String :=
  if count_tokens enc text > max_tokens then ⟨text.data.take (7 * max_tokens / 2)⟩
  else text

/-- One chat message (`role` / `content`). -/
structure Message where
  role : String
  content : String
deriving Repr, DecidableEq

/-- The request sent to `openai.ChatCompletion.create`. -/
structure ChatRequest where
  model : String
  messages : List Message
  temperature : ℚ
  maxTokensOut : Nat
deriving DecidableEq

/-- Outcome of the chat-completion call: the list of choice contents
(`choices[i].message['content']`), or an exception. -/
inductive ChatOutcome where
  | success (choices : List String)
  | error (msg : String)
deriving Repr, DecidableEq

/-- The fixed system instruction of `generate_summary`. -/
def systemContent : String :=
  "You are a helpful assistant that summarizes video transcripts."

/-- The fixed user-instruction text prepended to the (possibly truncated)
transcript in `generate_summary`. -/
def bulletPrompt : String :=
  "Create a detailed summary with key points in bullet format:\n\n"

/-- The exact request `generate_summary` builds: model gpt-3.5-turbo, the two
messages, temperature 0.3, and a 500-token output ceiling. -/
def summaryRequest (enc : String → List Nat) (text : String) : ChatRequest :=
  { model := "gpt-3.5-turbo"
  , messages :=
      [ { role := "system", content := systemContent }
      , { role := "user", content := bulletPrompt ++ generate_summary_text enc text } ]
  , temperature := 3 / 10
  , maxTokensOut := 500 }

/-- Model of `generate_summary(text)`: truncate if over budget, send the two-message
request, and return `response.choices[0].message['content']`.  Indexing an
empty `choices` list raises, and every exception is displayed as
`Summarization error: {e}` with `None` returned. -/
def generate_summary (enc : String → List Nat) (svc : ChatRequest → ChatOutcome)
    (text : String) : Option String × List String :=
  match svc (summaryRequest enc text) with
  | .success choices =>
    match choices with
    | c :: _ => (some c, [])
    | [] => (none, ["Summarization error: list index out of range"])
  | .error e => (none, ["Summarization error: " ++ e])

/-- Python truthiness of an optional string: `None` and `""` are falsy. -/
def pyTruthy : Option String → Bool
  | none => false
  | some s => !(s == "")

/-- The environment of one pipeline invocation: the outcome each external
service would produce if called. -/
structure Env where
  fetch : FetchOutcome
  download : DownloadOutcome
  transcribe : TranscribeOutcome
  enc : String → List Nat
  chat : ChatRequest → ChatOutcome

/-- Observable result of stages 1-3 (the transcript-acquisition part of the
driver): the transcript variable's final value, how often the download and
transcription stages ran, the files removed by `os.remove`, and the errors
displayed so far. -/
structure StageResult where
  transcript : Option String
  fetchCalls : Nat
  downloadCalls : Nat
  transcribeCalls : Nat
  removedFiles : List String
  errors : List String
deriving Repr, DecidableEq

/-- Stages 1-3 of the driver:
`transcript = get_youtube_transcript(url)`; `if not transcript:` download the
audio, and `if audio_path:` transcribe it and `os.remove(audio_path)`. -/
def acquireTranscript (env : Env) : StageResult :=
  let f := get_youtube_transcript env.fetch
  if pyTruthy f.1 then
    { transcript := f.1, fetchCalls := 1, downloadCalls := 0, transcribeCalls := 0
    , removedFiles := [], errors := f.2 }
  else
    let dl := download_audio env.download
    if pyTruthy dl.path then
      let tr := transcribe_audio env.transcribe
      { transcript := tr.1, fetchCalls := 1, downloadCalls := 1, transcribeCalls := 1
      , removedFiles := dl.path.toList, errors := f.2 ++ dl.errors ++ tr.2 }
    else
      { transcript := f.1, fetchCalls := 1, downloadCalls := 1, transcribeCalls := 0
      , removedFiles := [], errors := f.2 ++ dl.errors }

/-- Observable result of one full run of the button handler. -/
structure RunResult where
  fetchCalls : Nat
  downloadCalls : Nat
  transcribeCalls : Nat
  summaryCalls : Nat
  summarizerInput : Option String
  removedFiles : List String
  transcriptShown : Option String
  summaryShown : Option String
  downloadButtons : Bool
  errors : List String
  warnings : List String
deriving Repr, DecidableEq

/-- The `else` rendering when the final transcript is falsy. -/
def noTranscriptResult (s : StageResult) : RunResult :=
  { fetchCalls := s.fetchCalls
  , downloadCalls := s.downloadCalls, transcribeCalls := s.transcribeCalls
  , summaryCalls := 0, summarizerInput := none, removedFiles := s.removedFiles
  , transcriptShown := none, summaryShown := none, downloadButtons := false
  , errors := s.errors ++ ["Could not process video. Please check URL or try another video."]
  , warnings := [] }

/-- Stage 4 and rendering: `if transcript:` show it and call
`generate_summary`; `if summary:` show it plus the two download buttons, else
display `Failed to generate summary`; with no transcript display the
could-not-process error. -/
def renderRun (env : Env) (s : StageResult) : RunResult :=
  match s.transcript with
  | some t =>
    if t == "" then noTranscriptResult s
    else
      let gs := generate_summary env.enc env.chat t
      if pyTruthy gs.1 then
        { fetchCalls := s.fetchCalls
        , downloadCalls := s.downloadCalls, transcribeCalls := s.transcribeCalls
        , summaryCalls := 1, summarizerInput := some t, removedFiles := s.removedFiles
        , transcriptShown := some t, summaryShown := gs.1, downloadButtons := true
        , errors := s.errors ++ gs.2, warnings := [] }
      else
        { fetchCalls := s.fetchCalls
        , downloadCalls := s.downloadCalls, transcribeCalls := s.transcribeCalls
        , summaryCalls := 1, summarizerInput := some t, removedFiles := s.removedFiles
        , transcriptShown := some t, summaryShown := none, downloadButtons := false
        , errors := s.errors ++ gs.2 ++ ["Failed to generate summary"], warnings := [] }
  | none => noTranscriptResult s

/-- The button handler: `if url:` run the pipeline, else display the warning
`Please enter a valid YouTube URL` and call nothing. -/
def runPipeline (url : String) (env : Env) : RunResult :=
  if url == "" then
    { fetchCalls := 0, downloadCalls := 0, transcribeCalls := 0, summaryCalls := 0
    , summarizerInput := none, removedFiles := [], transcriptShown := none
    , summaryShown := none, downloadButtons := false, errors := []
    , warnings := ["Please enter a valid YouTube URL"] }
  else
    renderRun env (acquireTranscript env)

/-- Spec-side description of the tail of a separator join: the separator
followed by each remaining element in order. -/
def joinTail (sep : String) : List String → String
  | [] => ""
  | a :: as => sep ++ a ++ joinTail sep as

/-- Spec-side description of the Transcript Fetcher output: the texts in their
original order, joined with single-space separators. -/
def joinSpaced : List String → String
  | [] => ""
  | [t] => t
  | t :: ts => t ++ " " ++ joinSpaced ts

/-- A baseline environment in which every external service fails. -/
def baseEnv : Env :=
  { fetch := .transcriptsDisabled
  , download := .streams []
  , transcribe := .error "net"
  , enc := fun _ => []
  , chat := fun _ => .error "net" }

/-- Environment with no transcript, one audio/mp4 stream, and a failing
transcription service. -/
def envAudioFail : Env :=
  { baseEnv with
    download := .streams [{ onlyAudio := true, fileExtension := "mp4", name := "clip.mp4" }] }

/-- Environment in which the transcript service succeeds with an empty segment
list, and an audio/mp4 stream exists. -/
def envEmptySegments : Env :=
  { baseEnv with
    fetch := .success []
  , download := .streams [{ onlyAudio := true, fileExtension := "mp4", name := "a.mp4" }] }

/-- Environment in which everything succeeds: a one-segment transcript and a
summary from the chat service. -/
def envOk : Env :=
  { baseEnv with
    fetch := .success [{ text := "hello" }]
  , chat := fun _ => .success ["a summary"] }

/-- Environment in which the transcript succeeds and the chat service returns
a first completion whose text is the empty string. -/
def envEmptySummary : Env :=
  { baseEnv with
    fetch := .success [{ text := "hello" }]
  , chat := fun _ => .success [""] }

/-- A concrete stream list: a video/mp4 stream, an audio/webm stream, then an
audio/mp4 stream. -/
def streamsW : List AudioStream :=
  [ { onlyAudio := false, fileExtension := "mp4", name := "v" }
  , { onlyAudio := true, fileExtension := "webm", name := "w" }
  , { onlyAudio := true, fileExtension := "mp4", name := "a" } ]

/-! ### Helper lemmas -/

lemma pyTruthy_eq_true {o : Option String} :
    pyTruthy o = true ↔ ∃ s, o = some s ∧ s ≠ "" := by
  cases o with
  | none => simp [pyTruthy]
  | some s => simp [pyTruthy]

lemma pyTruthy_eq_false {o : Option String} :
    pyTruthy o = false ↔ o = none ∨ o = some "" := by
  cases o with
  | none => simp [pyTruthy]
  | some s => simp [pyTruthy]

lemma intercalate_go_eq (sep : String) :
    ∀ (as : List String) (acc : String),
      String.intercalate.go acc sep as = acc ++ joinTail sep as := by
  intro as
  induction as with
  | nil => intro acc; simp [String.intercalate.go, joinTail]
  | cons a as ih =>
    intro acc
    simp only [String.intercalate.go, joinTail, ih, String.append_assoc]

lemma joinSpaced_cons (a : String) (as : List String) :
    joinSpaced (a :: as) = a ++ joinTail " " as := by
  induction as generalizing a with
  | nil => simp [joinSpaced, joinTail]
  | cons b bs ih => simp only [joinSpaced, joinTail, ih, String.append_assoc]

lemma intercalate_eq_joinSpaced (l : List String) :
    String.intercalate " " l = joinSpaced l := by
  cases l with
  | nil => rfl
  | cons a as =>
    simp only [String.intercalate, intercalate_go_eq, joinSpaced_cons]

lemma renderRun_counts (env : Env) (s : StageResult) :
    (renderRun env s).fetchCalls = s.fetchCalls ∧
    (renderRun env s).downloadCalls = s.downloadCalls ∧
    (renderRun env s).transcribeCalls = s.transcribeCalls ∧
    (renderRun env s).removedFiles = s.removedFiles := by
  unfold renderRun
  split
  · split
    · simp [noTranscriptResult]
    · dsimp only
      split <;> simp
  · simp [noTranscriptResult]

lemma acquireTranscript_downloadCalls (env : Env) :
    (acquireTranscript env).downloadCalls =
      if pyTruthy (get_youtube_transcript env.fetch).1 then 0 else 1 := by
  simp only [acquireTranscript]
  split
  · simp_all
  · split <;> simp_all

lemma runPipeline_downloadCalls (url : String) (env : Env) (h : url ≠ "") :
    (runPipeline url env).downloadCalls =
      if pyTruthy (get_youtube_transcript env.fetch).1 then 0 else 1 := by
  simp only [runPipeline, beq_iff_eq, if_neg h]
  rw [(renderRun_counts env (acquireTranscript env)).2.1,
    acquireTranscript_downloadCalls]

lemma acquireTranscript_transcribe_removes (env : Env)
    (h : 0 < (acquireTranscript env).transcribeCalls) :
    ∃ p, (download_audio env.download).path = some p ∧
      (acquireTranscript env).removedFiles = [p] := by
  simp only [acquireTranscript] at h ⊢
  split at h
  · simp at h
  · rename_i hft
    split at h
    · rename_i hdl
      obtain ⟨p, hp, -⟩ := pyTruthy_eq_true.mp hdl
      rw [hp] at hdl
      refine ⟨p, hp, ?_⟩
      simp [hft, hdl, hp]
    · simp at h

lemma renderRun_summary_source (env : Env) (s : StageResult)
    (h : 0 < (renderRun env s).summaryCalls) :
    ∃ t, s.transcript = some t ∧ t ≠ "" ∧
      (renderRun env s).summarizerInput = some t := by
  cases hT : s.transcript with
  | none => simp [renderRun, hT, noTranscriptResult] at h
  | some t =>
    by_cases ht : t = ""
    · simp [renderRun, hT, ht, noTranscriptResult] at h
    · refine ⟨t, rfl, ht, ?_⟩
      have hbe : (t == "") = false := by simpa using ht
      by_cases hg : pyTruthy (generate_summary env.enc env.chat t).1 = true
      · simp [renderRun, hT, hbe, hg]
      · simp [renderRun, hT, hbe, hg]

lemma renderRun_buttons (env : Env) (s : StageResult) :
    (renderRun env s).downloadButtons = true ↔
      ((∃ t, (renderRun env s).transcriptShown = some t ∧ t ≠ "") ∧
       (∃ sm, (renderRun env s).summaryShown = some sm ∧ sm ≠ "")) := by
  cases hT : s.transcript with
  | none => simp [renderRun, hT, noTranscriptResult]
  | some t =>
    by_cases ht : t = ""
    · simp [renderRun, hT, ht, noTranscriptResult]
    · have hbe : (t == "") = false := by simpa using ht
      by_cases hg : pyTruthy (generate_summary env.enc env.chat t).1 = true
      · obtain ⟨sm, hsm, hsmne⟩ := pyTruthy_eq_true.mp hg
        have hps : pyTruthy (some sm) = true := by simp [pyTruthy, hsmne]
        simp [renderRun, hT, hbe, hg, ht, hsm, hsmne, hps]
      · simp [renderRun, hT, hbe, hg]

/-! ### Claim theorems -/

/-- C1: after the speech-to-text stage completes, whether the transcription
call succeeded or failed, the pipeline driver removes the file returned by the
audio download: whenever a run attempted transcription, the set of files
removed by `os.remove` is exactly the downloaded audio path. -/
theorem transcription_always_removes_audio_file (url : String) (env : Env)
    (h : 0 < (runPipeline url env).transcribeCalls) :
    ∃ p, (download_audio env.download).path = some p ∧
      (runPipeline url env).removedFiles = [p] := by
  by_cases hu : (url == "") = true
  · simp [runPipeline, hu] at h
  · simp only [runPipeline, if_neg hu] at h ⊢
    rw [(renderRun_counts env (acquireTranscript env)).2.2.1] at h
    rw [(renderRun_counts env (acquireTranscript env)).2.2.2]
    exact acquireTranscript_transcribe_removes env h

/-- Witness for C1: a run in which the transcript is unavailable, an audio/mp4
stream downloads, and the transcription service fails; the downloaded file is
still removed. -/
theorem transcription_always_removes_audio_file_witness :
    ∃ p, (download_audio envAudioFail.download).path = some p ∧
      (runPipeline "https://youtu.be/x" envAudioFail).removedFiles = [p] :=
  transcription_always_removes_audio_file "https://youtu.be/x" envAudioFail (by decide)

/-- C2: when the token count of the input is at most 3000 the Summarizer sends
the text unmodified; when it exceeds 3000 the text sent is the input truncated
to its first `int(3000 * 3.5) = 10500` characters, hence at most 10500
characters long. -/
theorem summary_truncation_policy (enc : String → List Nat) (text : String) :
    (count_tokens enc text ≤ 3000 → generate_summary_text enc text = text) ∧
    (3000 < count_tokens enc text →
      generate_summary_text enc text = ⟨text.data.take 10500⟩ ∧
      (generate_summary_text enc text).length ≤ 10500) := by
  have h7 : (7 : Nat) * 3000 / 2 = 10500 := by norm_num
  constructor
  · intro h
    simp [generate_summary_text, Nat.not_lt.mpr h]
  · intro h
    constructor
    · simp [generate_summary_text, h, h7]
    · have hlen : generate_summary_text enc text = ⟨text.data.take 10500⟩ := by
        simp [generate_summary_text, h, h7]
      rw [hlen]
      have hm : (String.mk (text.data.take 10500)).length =
          (text.data.take 10500).length := rfl
      rw [hm]
      exact List.length_take_le 10500 text.data

/-- Witness for C2: a tokenizer reporting zero tokens leaves a short text
unchanged; a tokenizer reporting 3001 tokens triggers the character cut. -/
theorem summary_truncation_policy_witness :
    generate_summary_text (fun _ => []) "abc" = "abc" ∧
    (generate_summary_text (fun _ => List.replicate 3001 0) "abc" =
        ⟨"abc".data.take 10500⟩ ∧
      (generate_summary_text (fun _ => List.replicate 3001 0) "abc").length ≤ 10500) :=
  ⟨(summary_truncation_policy (fun _ => []) "abc").1 (by decide),
   (summary_truncation_policy (fun _ => List.replicate 3001 0) "abc").2
     (by norm_num [count_tokens])⟩

/-- C3: when the transcript service returns a list of timed segments, the
Transcript Fetcher output is the segments' text fields in their original
order, joined with single-space separators, and no error is displayed. -/
theorem transcript_is_joined_segments (segs : List Segment) :
    get_youtube_transcript (.success segs) =
      (some (joinSpaced (segs.map Segment.text)), []) := by
  simp [get_youtube_transcript, intercalate_eq_joinSpaced]

/-- C4 counterexample: when the transcript service succeeds with an empty
segment list, the Transcript Fetcher yields a present (non-absent) transcript,
the empty string, and yet the driver invokes the audio fallback — refuting
"the Audio Fallback Extractor is invoked exactly when the Transcript Fetcher
yields an absent result". -/
theorem fallback_runs_despite_present_transcript :
    (get_youtube_transcript envEmptySegments.fetch).1 = some "" ∧
    (runPipeline "u" envEmptySegments).downloadCalls = 1 := by decide

/-- C4 (amended): the Audio Fallback Extractor is invoked exactly when the
Transcript Fetcher yields an absent or empty result, and then exactly once;
for a non-empty stage-1 transcript it is never invoked. -/
theorem fallback_iff_falsy_transcript (url : String) (env : Env)
    (h : url ≠ "") :
    (runPipeline url env).downloadCalls =
      if pyTruthy (get_youtube_transcript env.fetch).1 then 0 else 1 := by
  have hu : ¬((url == "") = true) := by simpa using h
  simp only [runPipeline, if_neg hu]
  rw [(renderRun_counts env (acquireTranscript env)).2.1,
    acquireTranscript_downloadCalls]

/-- Witness for C4: in the empty-segment environment the stage-1 transcript is
falsy and the extractor runs exactly once. -/
theorem fallback_iff_falsy_transcript_witness :
    (runPipeline "u" envEmptySegments).downloadCalls =
      if pyTruthy (get_youtube_transcript envEmptySegments.fetch).1 then 0 else 1 :=
  fallback_iff_falsy_transcript "u" envEmptySegments (by decide)

/-- C5: every stage converts its exceptions into an absent return value rather
than letting them escape: transcripts-disabled and no-transcript-found return
absent with no displayed message, and any other exception in the fetch,
download, transcription or summarization stage returns absent together with
one displayed error message. -/
theorem stage_errors_caught_and_displayed :
    (get_youtube_transcript .transcriptsDisabled = (none, []) ∧
      get_youtube_transcript .noTranscriptFound = (none, [])) ∧
    (∀ e, get_youtube_transcript (.otherError e) = (none, ["Error: " ++ e])) ∧
    (∀ e, download_audio (.error e) =
      { path := none, dirCreated := false, errors := ["Download error: " ++ e] }) ∧
    (∀ e, transcribe_audio (.error e) = (none, ["Transcription error: " ++ e])) ∧
    (∀ (enc : String → List Nat) (svc : ChatRequest → ChatOutcome) (text e : String),
      svc (summaryRequest enc text) = ChatOutcome.error e →
      generate_summary enc svc text = (none, ["Summarization error: " ++ e])) := by
  refine ⟨⟨rfl, rfl⟩, fun e => rfl, fun e => rfl, fun e => rfl, ?_⟩
  intro enc svc text e hsvc
  simp [generate_summary, hsvc]

/-- Witness for C5: a failing chat service yields an absent summary plus the
displayed summarization error. -/
theorem stage_errors_caught_and_displayed_witness :
    generate_summary (fun _ => []) (fun _ => ChatOutcome.error "net") "hi" =
      (none, ["Summarization error: " ++ "net"]) :=
  stage_errors_caught_and_displayed.2.2.2.2 (fun _ => [])
    (fun _ => ChatOutcome.error "net") "hi" "net" rfl

/-- C6: the Summarizer is invoked only on a present-and-non-empty transcript,
and a stage-1 result that is empty or absent routes the pipeline to the audio
fallback instead. -/
theorem summarizer_requires_nonempty_transcript (url : String) (env : Env) :
    (0 < (runPipeline url env).summaryCalls →
      ∃ t, (runPipeline url env).summarizerInput = some t ∧ t ≠ "") ∧
    (url ≠ "" → pyTruthy (get_youtube_transcript env.fetch).1 = false →
      (runPipeline url env).downloadCalls = 1) := by
  constructor
  · intro h
    by_cases hu : (url == "") = true
    · simp [runPipeline, hu] at h
    · simp only [runPipeline, if_neg hu] at h ⊢
      obtain ⟨t, -, ht, hin⟩ := renderRun_summary_source env (acquireTranscript env) h
      exact ⟨t, hin, ht⟩
  · intro hu hfalse
    rw [runPipeline_downloadCalls url env hu, hfalse]
    simp

/-- Witness for C6: a successful run summarizes the non-empty transcript
"hello", and a run whose stage-1 result is absent invokes the fallback once. -/
theorem summarizer_requires_nonempty_transcript_witness :
    (∃ t, (runPipeline "u" envOk).summarizerInput = some t ∧ t ≠ "") ∧
    (runPipeline "u" envAudioFail).downloadCalls = 1 :=
  ⟨(summarizer_requires_nonempty_transcript "u" envOk).1 (by decide),
   (summarizer_requires_nonempty_transcript "u" envAudioFail).2 (by decide) (by decide)⟩

/-- C7: the Audio Fallback Extractor selects the first stream that is
audio-only and in the mp4 container; when no such stream exists it returns
absent with the scratch directory untouched; otherwise it ensures the fixed
scratch directory `temp_audio` (created if missing) and downloads the selected
stream into it. -/
theorem download_selects_first_audio_mp4 (ss : List AudioStream) :
    ((download_audio (.streams ss)).path =
      (ss.find? isAudioMp4).map (fun s => "temp_audio/" ++ s.name)) ∧
    (ss.find? isAudioMp4 = none →
      download_audio (.streams ss) =
        { path := none, dirCreated := false, errors := [] }) ∧
    (∀ s, ss.find? isAudioMp4 = some s →
      download_audio (.streams ss) =
        { path := some ("temp_audio/" ++ s.name), dirCreated := true
        , errors := [] }) := by
  cases hfind : ss.find? isAudioMp4 with
  | none =>
    have hh : (ss.filter isAudioMp4).head? = none := by
      rw [List.filter_head?, hfind]
    refine ⟨by simp [download_audio, hh, hfind], fun _ => by simp [download_audio, hh], ?_⟩
    intro s hs
    simp [hfind] at hs
  | some s0 =>
    have hh : (ss.filter isAudioMp4).head? = some s0 := by
      rw [List.filter_head?, hfind]
    refine ⟨by simp [download_audio, hh, hfind], fun hc => by simp [hfind] at hc, ?_⟩
    intro s hs
    obtain rfl : s0 = s := by injection hs
    simp [download_audio, hh]

/-- Witness for C7: the empty stream list yields absent with no directory
creation, and in a list with a video/mp4 and an audio/webm stream first, the
audio/mp4 stream named "a" is the one downloaded. -/
theorem download_selects_first_audio_mp4_witness :
    download_audio (.streams ([] : List AudioStream)) =
      { path := none, dirCreated := false, errors := [] } ∧
    download_audio (.streams streamsW) =
      { path := some ("temp_audio/" ++ "a"), dirCreated := true, errors := [] } :=
  ⟨(download_selects_first_audio_mp4 []).2.1 rfl,
   (download_selects_first_audio_mp4 streamsW).2.2
     { onlyAudio := true, fileExtension := "mp4", name := "a" } (by decide)⟩

/-- C8: for every non-empty transcript input the Summarizer sends exactly two
messages — the fixed system instruction and the user instruction given by the
fixed bullet-point request prefixed to the (budget-truncated) transcript
text — with temperature 0.3 and a 500-token output ceiling, and returns the
first completion's text. -/
theorem summarizer_request_and_result (enc : String → List Nat)
    (svc : ChatRequest → ChatOutcome) (text c : String) (cs : List String)
    (_hne : text ≠ "")
    (hsvc : svc (summaryRequest enc text) = ChatOutcome.success (c :: cs)) :
    (summaryRequest enc text).messages.length = 2 ∧
    (summaryRequest enc text).messages =
      [ { role := "system", content := systemContent }
      , { role := "user"
        , content := bulletPrompt ++ generate_summary_text enc text } ] ∧
    (summaryRequest enc text).temperature = 3 / 10 ∧
    (summaryRequest enc text).maxTokensOut = 500 ∧
    (generate_summary enc svc text).1 = some c := by
  refine ⟨rfl, rfl, rfl, rfl, ?_⟩
  simp [generate_summary, hsvc]

/-- Witness for C8: on the non-empty input "hello" with a chat service whose
first completion is "s", the request has the fixed two messages, temperature
0.3 and ceiling 500, and the summary returned is "s". -/
theorem summarizer_request_and_result_witness :
    (summaryRequest (fun _ => []) "hello").messages.length = 2 ∧
    (summaryRequest (fun _ => []) "hello").messages =
      [ { role := "system", content := systemContent }
      , { role := "user"
        , content := bulletPrompt ++ generate_summary_text (fun _ => []) "hello" } ] ∧
    (summaryRequest (fun _ => []) "hello").temperature = 3 / 10 ∧
    (summaryRequest (fun _ => []) "hello").maxTokensOut = 500 ∧
    (generate_summary (fun _ => [])
      (fun _ => ChatOutcome.success ["s"]) "hello").1 = some "s" :=
  summarizer_request_and_result (fun _ => []) (fun _ => ChatOutcome.success ["s"])
    "hello" "s" [] (by decide) rfl

/-- C9: when the trigger action fires with an empty URL, no stage runs — no
transcript fetch, no download, no transcription, no summarization call — and
only the warning message is displayed. -/
theorem empty_url_runs_nothing (env : Env) :
    runPipeline "" env =
      { fetchCalls := 0, downloadCalls := 0, transcribeCalls := 0
      , summaryCalls := 0, summarizerInput := none, removedFiles := []
      , transcriptShown := none, summaryShown := none, downloadButtons := false
      , errors := [], warnings := ["Please enter a valid YouTube URL"] } := rfl

/-- C10 counterexample: with transcript "hello" present and a chat service
whose first completion is the empty string, the summary is present
(`some ""`) and the transcript is displayed, yet no download affordance
appears — refuting "offered if and only if both the transcript and the
summary are present". -/
theorem buttons_absent_despite_present_summary :
    (generate_summary envEmptySummary.enc envEmptySummary.chat "hello").1 = some "" ∧
    (runPipeline "u" envEmptySummary).transcriptShown = some "hello" ∧
    (runPipeline "u" envEmptySummary).downloadButtons = false := by decide

/-- C10 (amended): the two download affordances are offered exactly when both
a non-empty transcript and a non-empty summary are displayed; when
summarization fails or yields an empty completion the transcript is still
displayed but neither affordance appears. -/
theorem buttons_iff_transcript_and_summary (url : String) (env : Env) :
    (runPipeline url env).downloadButtons = true ↔
      ((∃ t, (runPipeline url env).transcriptShown = some t ∧ t ≠ "") ∧
       (∃ sm, (runPipeline url env).summaryShown = some sm ∧ sm ≠ "")) := by
  by_cases hu : (url == "") = true
  · simp [runPipeline, hu]
  · simp only [runPipeline, if_neg hu]
    exact renderRun_buttons env (acquireTranscript env)

end YtSummarizer
